import Mathlib

/-!
Shallow embedding of `src/vm_carrier.py` (repository `rbnorth/vm-carrier`).

The program is a CLI that validates six parameters and spawns one external
provisioning command.  The embedding models:

* the keyword-argument dictionary seen by the `validate_inputs` decorator
  (`Kwargs`, fields are `Option String` because `kwargs.get` yields `None`
  for a missing key);
* the validation chain of `validate_inputs` (lines 30-61);
* command construction and `subprocess.run(command, check=True)` inside
  `create_instance` (lines 82-99), with the list of spawned commands made
  explicit so that "no subprocess is spawned" is statable;
* the keyword-argument call performed by `main` (lines 142-149) together
  with the argparse default for `--zone` (line 125);
* the process exit status of the script (an uncaught Python exception
  terminates the CPython interpreter with status 1).
-/

namespace VmCarrier

/-- The keyword-argument dictionary observed by the `validate_inputs`
decorator: `kwargs.get(k)` returns `None` (`none`) when the key is absent. -/
structure Kwargs where
  instance_name : Option String
  project : Option String
  zone : Option String
  source_image : Option String
  service_account : Option String
  subnet : Option String
deriving DecidableEq, Repr

/-- Python truthiness test `not x` for a value obtained from `kwargs.get`:
`None` and the empty string are falsy, every other string is truthy. -/
def falsy : Option String → Bool
  | none => true
  | some s => s = ""

/-- The `ValueError` raised by `validate_inputs`, tagged by the failing
field check (checks run in source order, lines 40-57). -/
inductive ValidationError
  | instanceName
  | project
  | zone
  | sourceImage
  | serviceAccount
  | subnet
deriving DecidableEq, Repr

/-- The message string of each `ValueError` raised by `validate_inputs`. -/
def ValidationError.message : ValidationError → String
  | .instanceName => "Instance name must be non-empty and no longer than 63 characters."
  | .project => "Project ID is required."
  | .zone => "Zone is required."
  | .sourceImage => "Source image URI is required."
  | .serviceAccount => "Service account email is required."
  | .subnet => "Subnet is required."

/-- The `validate_inputs` decorator body (lines 30-61): extracts the six
fields from `kwargs`, raises `ValueError` on the first failing check, and
otherwise forwards the call unchanged (modelled by returning the same
`Kwargs`).  The Python test
`not instance_name or len(instance_name) > 63` short-circuits, so `len`
is only reached when the field is a non-empty string; `getD ""` is exact
on that branch. -/
def validate_inputs (kw : Kwargs) : Except ValidationError Kwargs :=
  if falsy kw.instance_name || decide (63 < (kw.instance_name.getD "").length) then
    .error .instanceName
  else if falsy kw.project then .error .project
  else if falsy kw.zone then .error .zone
  else if falsy kw.source_image then .error .sourceImage
  else if falsy kw.service_account then .error .serviceAccount
  else if falsy kw.subnet then .error .subnet
  else .ok kw

/-- The command list constructed in `create_instance` (lines 82-89):
`["gcloud", "compute", "instances", "create", instance_name,
f"--project={project}", ...]`.  Values are interpolated verbatim. -/
def buildCommand (instance_name project zone source_image service_account subnet : String) :
    List String :=
  ["gcloud", "compute", "instances", "create", instance_name,
   "--project=" ++ project,
   "--zone=" ++ zone,
   "--source-machine-image=" ++ source_image,
   "--service-account=" ++ service_account,
   "--subnet=" ++ subnet]

/-- `subprocess.CalledProcessError`: carries the exit status of the child
(`returncode`). -/
structure ExternalCommandError where
  returncode : Nat
deriving DecidableEq, Repr

/-- `subprocess.run(command, check=True)` (line 95): returns normally when
the child exits 0, raises `CalledProcessError` carrying the exit status
otherwise.  The exit status of the child is an input of the model. -/
def execute (command : List String) (childExit : Nat) : Except ExternalCommandError Unit :=
  if childExit = 0 then .ok ()
  else .error ⟨childExit⟩

/-- An error escaping `create_instance`: either the `ValueError` from the
`validate_inputs` decorator or the re-raised `CalledProcessError`
(lines 97-99 catch, log and `raise` it unchanged). -/
inductive ProgError
  | validation (e : ValidationError)
  | external (e : ExternalCommandError)
deriving DecidableEq, Repr

/-- The body of `create_instance` (lines 82-99): builds the command, spawns
it once, and propagates `CalledProcessError`.  The first component records
every spawned command, in order. -/
def create_instance_body (instance_name project zone source_image service_account subnet : String)
    (childExit : Nat) : List (List String) × Except ExternalCommandError Unit :=
  let command := buildCommand instance_name project zone source_image service_account subnet
  ([command], execute command childExit)

/-- `create_instance` as called, with the `validate_inputs` decorator
applied (the `log_execution` decorator only logs and is behaviourally
transparent).  On validation failure the `ValueError` escapes before any
subprocess is spawned; on success the body runs on the keyword arguments,
which validation guarantees are all present (`some`) and non-empty. -/
def create_instance (kw : Kwargs) (childExit : Nat) :
    List (List String) × Except ProgError Unit :=
  match validate_inputs kw with
  | .error e => ([], .error (.validation e))
  | .ok kw' =>
    let r := create_instance_body (kw'.instance_name.getD "") (kw'.project.getD "")
      (kw'.zone.getD "") (kw'.source_image.getD "") (kw'.service_account.getD "")
      (kw'.subnet.getD "") childExit
    (r.1, r.2.mapError .external)

/-- The keyword-argument dictionary built by `main` when it calls
`create_instance(instance_name=..., project=..., ...)` (lines 142-149):
every field is passed by keyword. -/
def mkKwargs (instance_name project zone source_image service_account subnet : String) : Kwargs :=
  ⟨some instance_name, some project, some zone, some source_image,
   some service_account, some subnet⟩

/-- The keyword-argument dictionary seen by the decorators when
`create_instance` is invoked with all six parameters passed positionally:
positional values land in `*args`, so `kwargs` is empty and every
`kwargs.get` returns `None`, whatever the values were. -/
def kwargsOfPositionalCall (instance_name project zone source_image service_account subnet :
    String) : Kwargs :=
  let _ := (instance_name, project, zone, source_image, service_account, subnet)
  ⟨none, none, none, none, none, none⟩

/-- The command-line arguments accepted by `main` (lines 115-137):
`instance_name` positional, `--project`, `--source-image`,
`--service-account`, `--subnet` required, `--zone` optional
(`none` models an omitted `--zone`). -/
structure CliArgs where
  instance_name : String
  project : String
  zone : Option String
  source_image : String
  service_account : String
  subnet : String
deriving DecidableEq, Repr

/-- The argparse handling of `--zone` (line 125): the value when given,
the literal default `"us-central1-b"` when omitted. -/
def parseZone (z : Option String) : String := z.getD "us-central1-b"

/-- The keyword arguments `main` passes to `create_instance`
(lines 142-149), after argparse applied the `--zone` default. -/
def mainKwargs (cli : CliArgs) : Kwargs :=
  mkKwargs cli.instance_name cli.project (parseZone cli.zone) cli.source_image
    cli.service_account cli.subnet

/-- Exit status of the whole script for a given keyword-argument
dictionary and child exit status.  `__main__` (lines 151-157) installs no
exception handler, and CPython terminates with exit status 1 on any
uncaught exception, so both a `ValueError` from validation and a re-raised
`CalledProcessError` yield status 1, regardless of the exit
code of the child itself. -/
def scriptExitCode (kw : Kwargs) (childExit : Nat) : Nat :=
  match (create_instance kw childExit).2 with
  | .ok _ => 0
  | .error _ => 1

/-- A concrete valid request (the Scenario A field values of the spec, zone
already defaulted). -/
def scenarioKwargs : Kwargs :=
  mkKwargs "vm1" "proj" "us-central1-b" "img-uri"
    "sa@proj.iam.gserviceaccount.com" "subnet-1"

/-! ## Helper lemmas -/

/-- A string has length at least 1 exactly when it is non-empty. -/
theorem one_le_length_iff (s : String) : 1 ≤ s.length ↔ s ≠ "" := by
  cases s with
  | mk data =>
    cases data with
    | nil => simp [String.length]
    | cons c cs => simp [String.length, String.ext_iff]

/-- Characterisation of `validate_inputs` on the fully keyword-populated
dictionary built by `main`. -/
theorem validate_mk_ok_iff (i p z s a n : String) :
    validate_inputs (mkKwargs i p z s a n) = .ok (mkKwargs i p z s a n) ↔
      (i ≠ "" ∧ i.length ≤ 63 ∧ p ≠ "" ∧ z ≠ "" ∧ s ≠ "" ∧ a ≠ "" ∧ n ≠ "") := by
  simp only [validate_inputs, mkKwargs, falsy, Option.getD_some, Bool.or_eq_true,
    decide_eq_true_eq]
  split_ifs with h1 h2 h3 h4 h5 h6
  · simp only [false_iff]
    rintro ⟨hne, hle, -⟩
    rcases h1 with h1 | h1
    · exact hne h1
    · omega
  · simp_all
  · simp_all
  · simp_all
  · simp_all
  · simp_all
  · simp only [Except.ok.injEq, true_iff]
    push_neg at h1
    exact ⟨h1.1, by omega, h2, h3, h4, h5, h6⟩

/-- `validate_inputs` can only succeed by returning its argument. -/
theorem validate_ok_eq (kw r : Kwargs) (h : validate_inputs kw = .ok r) : r = kw := by
  unfold validate_inputs at h
  split_ifs at h <;> simp_all

/-- `validate_inputs` either succeeds with the argument itself or raises
some `ValidationError`. -/
theorem validate_cases (kw : Kwargs) :
    validate_inputs kw = .ok kw ∨ ∃ e, validate_inputs kw = .error e := by
  cases h : validate_inputs kw with
  | ok r =>
    left
    have hrk := validate_ok_eq kw r h
    subst hrk
    rfl
  | error e => right; exact ⟨e, rfl⟩

/-- On validated keyword arguments, `create_instance` spawns exactly the
built command once and returns the result of `execute`. -/
theorem create_instance_valid_eq (i p z s a n : String) (c : Nat)
    (h : validate_inputs (mkKwargs i p z s a n) = .ok (mkKwargs i p z s a n)) :
    create_instance (mkKwargs i p z s a n) c =
      ([buildCommand i p z s a n],
       (execute (buildCommand i p z s a n) c).mapError .external) := by
  simp only [mkKwargs] at h
  simp [create_instance, h, create_instance_body, mkKwargs]

/-- On keyword arguments that fail validation, `create_instance` spawns
nothing and propagates the `ValidationError`. -/
theorem create_instance_invalid_eq (kw : Kwargs) (c : Nat) (e : ValidationError)
    (h : validate_inputs kw = .error e) :
    create_instance kw c = ([], .error (.validation e)) := by
  simp [create_instance, h]

/-! ## Claims -/

/-- C1: on the keyword arguments built by `main`, `validate_inputs`
succeeds (returning the request) precisely when `instance_name` has length
in [1,63] and each of `project`, `zone`, `source_image`,
`service_account`, `subnet` is non-empty; every input violating any of
these constraints fails with a `ValidationError`, and no other input
does. -/
theorem C1_validate_success_iff (i p z s a n : String) :
    (validate_inputs (mkKwargs i p z s a n) = .ok (mkKwargs i p z s a n) ↔
      (1 ≤ i.length ∧ i.length ≤ 63 ∧ p ≠ "" ∧ z ≠ "" ∧ s ≠ "" ∧ a ≠ "" ∧ n ≠ "")) ∧
    ((∃ e, validate_inputs (mkKwargs i p z s a n) = .error e) ↔
      ¬(1 ≤ i.length ∧ i.length ≤ 63 ∧ p ≠ "" ∧ z ≠ "" ∧ s ≠ "" ∧ a ≠ "" ∧ n ≠ "")) := by
  have hlen := one_le_length_iff i
  have hok := validate_mk_ok_iff i p z s a n
  have hok2 : validate_inputs (mkKwargs i p z s a n) = .ok (mkKwargs i p z s a n) ↔
      (1 ≤ i.length ∧ i.length ≤ 63 ∧ p ≠ "" ∧ z ≠ "" ∧ s ≠ "" ∧ a ≠ "" ∧ n ≠ "") := by
    rw [hok, hlen]
  refine ⟨hok2, ?_, ?_⟩
  · rintro ⟨e, he⟩ hc
    rw [hok2.mpr hc] at he
    exact Except.noConfusion he
  · intro hc
    rcases validate_cases (mkKwargs i p z s a n) with h | h
    · exact absurd (hok2.mp h) hc
    · exact h

/-- C2: for every validated request, the spawned command is exactly the
fixed ordered token sequence
`["gcloud", "compute", "instances", "create", instance_name,
"--project=...", "--zone=...", "--source-machine-image=...",
"--service-account=...", "--subnet=..."]`; being a function of the
request, the construction is deterministic. -/
theorem C2_buildCommand_tokens (i p z s a n : String) (c : Nat)
    (h : ∃ r, validate_inputs (mkKwargs i p z s a n) = .ok r) :
    (create_instance (mkKwargs i p z s a n) c).1 =
      [["gcloud", "compute", "instances", "create", i,
        "--project=" ++ p, "--zone=" ++ z, "--source-machine-image=" ++ s,
        "--service-account=" ++ a, "--subnet=" ++ n]] := by
  obtain ⟨r, hr⟩ := h
  have hrk := validate_ok_eq _ _ hr
  subst hrk
  rw [create_instance_valid_eq i p z s a n c hr]
  rfl

/-- Witness for C2 at the Scenario A field values. -/
theorem C2_buildCommand_tokens_witness :
    (create_instance (mkKwargs "vm1" "proj" "us-central1-b" "img-uri"
        "sa@proj.iam.gserviceaccount.com" "subnet-1") 0).1 =
      [["gcloud", "compute", "instances", "create", "vm1",
        "--project=" ++ "proj", "--zone=" ++ "us-central1-b",
        "--source-machine-image=" ++ "img-uri",
        "--service-account=" ++ "sa@proj.iam.gserviceaccount.com",
        "--subnet=" ++ "subnet-1"]] :=
  C2_buildCommand_tokens "vm1" "proj" "us-central1-b" "img-uri"
    "sa@proj.iam.gserviceaccount.com" "subnet-1" 0 ⟨_, rfl⟩

/-- C3 counterexample: with a valid request and a child exit status of 2,
the script exits with status 1, not 2 — an uncaught Python exception
always terminates the interpreter with status 1, so the exit status of
the external command is not mirrored. -/
theorem C3_counterexample :
    scriptExitCode scenarioKwargs 2 = 1 ∧ ¬ scriptExitCode scenarioKwargs 2 = 2 := by
  refine ⟨rfl, ?_⟩
  intro hcon
  rw [show scriptExitCode scenarioKwargs 2 = 1 from rfl] at hcon
  omega

/-- C3 (amended): on a validated request the script exits with status 0
when the external command exits 0, and with the fixed non-zero status 1
(the uncaught-exception status of the interpreter) for every non-zero
child exit status — non-zero, but not equal to the exit code of the
child in general. -/
theorem C3_amended_exit_status (kw : Kwargs) (c : Nat)
    (h : ∃ r, validate_inputs kw = .ok r) :
    (c = 0 → scriptExitCode kw c = 0) ∧ (c ≠ 0 → scriptExitCode kw c = 1) := by
  obtain ⟨r, hr⟩ := h
  have hrk := validate_ok_eq _ _ hr
  subst hrk
  constructor
  · intro h0
    subst h0
    simp [scriptExitCode, create_instance, hr, create_instance_body, execute,
      Except.mapError]
  · intro hne
    simp [scriptExitCode, create_instance, hr, create_instance_body, execute, hne,
      Except.mapError]

/-- Witness for the amended C3 at the Scenario A request and child exit
status 5. -/
theorem C3_amended_exit_status_witness :
    ((5 : Nat) = 0 → scriptExitCode scenarioKwargs 5 = 0) ∧
      ((5 : Nat) ≠ 0 → scriptExitCode scenarioKwargs 5 = 1) :=
  C3_amended_exit_status scenarioKwargs 5 ⟨scenarioKwargs, rfl⟩

/-- C4: `execute` returns normally exactly when the child exits 0; for
every non-zero exit status it raises `CalledProcessError` carrying that
status, and `create_instance` propagates it to the caller unchanged. -/
theorem C4_execute_result (cmd : List String) (kw : Kwargs) (c : Nat)
    (h : ∃ r, validate_inputs kw = .ok r) :
    (execute cmd c = .ok () ↔ c = 0) ∧
      (c ≠ 0 → execute cmd c = .error ⟨c⟩ ∧
        (create_instance kw c).2 = .error (.external ⟨c⟩)) := by
  obtain ⟨r, hr⟩ := h
  have hrk := validate_ok_eq _ _ hr
  subst hrk
  constructor
  · unfold execute
    split_ifs with h0
    · simp [h0]
    · simp [h0]
  · intro hne
    constructor
    · simp [execute, hne]
    · simp [create_instance, hr, create_instance_body, execute, hne, Except.mapError]

/-- Witness for C4 at the Scenario A request and child exit status 1. -/
theorem C4_execute_result_witness :
    (execute (buildCommand "vm1" "proj" "us-central1-b" "img-uri"
        "sa@proj.iam.gserviceaccount.com" "subnet-1") 1 = .ok () ↔ (1 : Nat) = 0) ∧
      ((1 : Nat) ≠ 0 → execute (buildCommand "vm1" "proj" "us-central1-b" "img-uri"
          "sa@proj.iam.gserviceaccount.com" "subnet-1") 1 = .error ⟨1⟩ ∧
        (create_instance scenarioKwargs 1).2 = .error (.external ⟨1⟩)) :=
  C4_execute_result (buildCommand "vm1" "proj" "us-central1-b" "img-uri"
    "sa@proj.iam.gserviceaccount.com" "subnet-1") scenarioKwargs 1 ⟨scenarioKwargs, rfl⟩

/-- C5: when `--zone` is omitted, argparse substitutes the literal
`"us-central1-b"`, validation succeeds when the remaining fields satisfy
their constraints, and the single spawned command contains the token
`--zone=us-central1-b`. -/
theorem C5_zone_default (cli : CliArgs) (hz : cli.zone = none)
    (hi1 : 1 ≤ cli.instance_name.length) (hi2 : cli.instance_name.length ≤ 63)
    (hp : cli.project ≠ "") (hs : cli.source_image ≠ "")
    (ha : cli.service_account ≠ "") (hn : cli.subnet ≠ "") :
    (mainKwargs cli).zone = some "us-central1-b" ∧
      validate_inputs (mainKwargs cli) = .ok (mainKwargs cli) ∧
      ∃ cmd, (create_instance (mainKwargs cli) 0).1 = [cmd] ∧
        "--zone=us-central1-b" ∈ cmd := by
  have hmk : mainKwargs cli = mkKwargs cli.instance_name cli.project "us-central1-b"
      cli.source_image cli.service_account cli.subnet := by
    simp [mainKwargs, parseZone, hz]
  have hok : validate_inputs (mainKwargs cli) = .ok (mainKwargs cli) := by
    rw [hmk]
    exact (validate_mk_ok_iff _ _ _ _ _ _).mpr
      ⟨(one_le_length_iff _).mp hi1, hi2, hp, by decide, hs, ha, hn⟩
  refine ⟨by simp [hmk, mkKwargs], hok, ?_⟩
  refine ⟨buildCommand cli.instance_name cli.project "us-central1-b"
    cli.source_image cli.service_account cli.subnet, ?_, ?_⟩
  · rw [hmk] at hok ⊢
    rw [create_instance_valid_eq _ _ _ _ _ _ 0 hok]
  · rw [show ("--zone=us-central1-b" : String) = "--zone=" ++ "us-central1-b" from rfl]
    simp [buildCommand]

/-- Witness for C5 at the Scenario A command line (zone omitted). -/
theorem C5_zone_default_witness :
    (mainKwargs ⟨"vm1", "proj", none, "img-uri",
        "sa@proj.iam.gserviceaccount.com", "subnet-1"⟩).zone = some "us-central1-b" ∧
      validate_inputs (mainKwargs ⟨"vm1", "proj", none, "img-uri",
          "sa@proj.iam.gserviceaccount.com", "subnet-1"⟩) =
        .ok (mainKwargs ⟨"vm1", "proj", none, "img-uri",
          "sa@proj.iam.gserviceaccount.com", "subnet-1"⟩) ∧
      ∃ cmd, (create_instance (mainKwargs ⟨"vm1", "proj", none, "img-uri",
          "sa@proj.iam.gserviceaccount.com", "subnet-1"⟩) 0).1 = [cmd] ∧
        "--zone=us-central1-b" ∈ cmd :=
  C5_zone_default ⟨"vm1", "proj", none, "img-uri",
      "sa@proj.iam.gserviceaccount.com", "subnet-1"⟩ rfl
    (by decide) (by decide) (by decide) (by decide) (by decide) (by decide)

/-- C6: whenever validation fails, the `ValidationError` escapes before
any subprocess is spawned — the spawn trace is empty and the error is the
`ValidationError` itself, for every child behaviour. -/
theorem C6_no_spawn_on_validation_failure (kw : Kwargs) (c : Nat) (e : ValidationError)
    (h : validate_inputs kw = .error e) :
    (create_instance kw c).1 = [] ∧ (create_instance kw c).2 = .error (.validation e) := by
  rw [create_instance_invalid_eq kw c e h]
  exact ⟨rfl, rfl⟩

/-- Witness for C6 at the Scenario B request (empty instance name). -/
theorem C6_no_spawn_on_validation_failure_witness :
    (create_instance (mkKwargs "" "proj" "us-central1-b" "img-uri"
        "sa@proj.iam.gserviceaccount.com" "subnet-1") 7).1 = [] ∧
      (create_instance (mkKwargs "" "proj" "us-central1-b" "img-uri"
          "sa@proj.iam.gserviceaccount.com" "subnet-1") 7).2 =
        .error (.validation .instanceName) :=
  C6_no_spawn_on_validation_failure (mkKwargs "" "proj" "us-central1-b" "img-uri"
    "sa@proj.iam.gserviceaccount.com" "subnet-1") 7 .instanceName rfl

/-- C7: validation is a pass-through guard — on success the validated
request forwarded to the wrapped function has exactly the same six field
values as the input. -/
theorem C7_validate_pass_through (kw r : Kwargs) (h : validate_inputs kw = .ok r) :
    r.instance_name = kw.instance_name ∧ r.project = kw.project ∧ r.zone = kw.zone ∧
      r.source_image = kw.source_image ∧ r.service_account = kw.service_account ∧
      r.subnet = kw.subnet ∧ r = kw := by
  have hrk := validate_ok_eq kw r h
  subst hrk
  exact ⟨rfl, rfl, rfl, rfl, rfl, rfl, rfl⟩

/-- Witness for C7 at the Scenario A request. -/
theorem C7_validate_pass_through_witness :
    scenarioKwargs.instance_name = scenarioKwargs.instance_name ∧
      scenarioKwargs.project = scenarioKwargs.project ∧
      scenarioKwargs.zone = scenarioKwargs.zone ∧
      scenarioKwargs.source_image = scenarioKwargs.source_image ∧
      scenarioKwargs.service_account = scenarioKwargs.service_account ∧
      scenarioKwargs.subnet = scenarioKwargs.subnet ∧
      scenarioKwargs = scenarioKwargs :=
  C7_validate_pass_through scenarioKwargs scenarioKwargs rfl

/-- C8: in every invocation the external command is spawned at most once —
exactly once when validation succeeds and never when it fails — whatever
the exit status of the child, so a non-zero exit cannot trigger a second
execution. -/
theorem C8_spawn_at_most_once (kw : Kwargs) (c : Nat) :
    ((create_instance kw c).1.length = 1 ∧ validate_inputs kw = .ok kw) ∨
      ((create_instance kw c).1.length = 0 ∧ ∃ e, validate_inputs kw = .error e) := by
  rcases validate_cases kw with h | ⟨e, h⟩
  · left
    refine ⟨?_, h⟩
    simp [create_instance, h, create_instance_body]
  · right
    exact ⟨by simp [create_instance_invalid_eq kw c e h], e, h⟩

/-- C9: field values are embedded verbatim, with no escaping or
sanitisation: every validated request yields exactly one spawned command
of exactly 10 tokens, and each field value appears unchanged inside its
token (by string concatenation with the fixed flag text), including
values containing spaces or beginning with `--`. -/
theorem C9_verbatim_tokens (i p z s a n : String) (c : Nat)
    (h : ∃ r, validate_inputs (mkKwargs i p z s a n) = .ok r) :
    ∃ cmd, (create_instance (mkKwargs i p z s a n) c).1 = [cmd] ∧
      cmd.length = 10 ∧
      cmd.get? 4 = some i ∧
      cmd.get? 5 = some ("--project=" ++ p) ∧
      cmd.get? 6 = some ("--zone=" ++ z) ∧
      cmd.get? 7 = some ("--source-machine-image=" ++ s) ∧
      cmd.get? 8 = some ("--service-account=" ++ a) ∧
      cmd.get? 9 = some ("--subnet=" ++ n) := by
  obtain ⟨r, hr⟩ := h
  have hrk := validate_ok_eq _ _ hr
  subst hrk
  refine ⟨buildCommand i p z s a n, ?_, rfl, rfl, rfl, rfl, rfl, rfl, rfl⟩
  rw [create_instance_valid_eq i p z s a n c hr]

/-- Witness for C9 with a value containing spaces and values beginning
with `--`. -/
theorem C9_verbatim_tokens_witness :
    ∃ cmd, (create_instance (mkKwargs "vm one" "--quiet" "zone 1" "img uri"
        "--acct" "sub net") 3).1 = [cmd] ∧
      cmd.length = 10 ∧
      cmd.get? 4 = some "vm one" ∧
      cmd.get? 5 = some ("--project=" ++ "--quiet") ∧
      cmd.get? 6 = some ("--zone=" ++ "zone 1") ∧
      cmd.get? 7 = some ("--source-machine-image=" ++ "img uri") ∧
      cmd.get? 8 = some ("--service-account=" ++ "--acct") ∧
      cmd.get? 9 = some ("--subnet=" ++ "sub net") :=
  C9_verbatim_tokens "vm one" "--quiet" "zone 1" "img uri" "--acct" "sub net" 3 ⟨_, rfl⟩

/-- C10: validation reads only keyword arguments — a fully positional
invocation presents an empty `kwargs`, so validation fails (on the
instance-name check) even when all six values satisfy the documented
constraints, while the all-keyword invocation performed by `main`
succeeds on the same values. -/
theorem C10_positional_call_fails (i p z s a n : String)
    (h : 1 ≤ i.length ∧ i.length ≤ 63 ∧ p ≠ "" ∧ z ≠ "" ∧ s ≠ "" ∧ a ≠ "" ∧ n ≠ "") :
    validate_inputs (kwargsOfPositionalCall i p z s a n) = .error .instanceName ∧
      validate_inputs (mkKwargs i p z s a n) = .ok (mkKwargs i p z s a n) := by
  refine ⟨rfl, (validate_mk_ok_iff i p z s a n).mpr
    ⟨(one_le_length_iff i).mp h.1, h.2.1, h.2.2.1, h.2.2.2.1, h.2.2.2.2.1,
      h.2.2.2.2.2.1, h.2.2.2.2.2.2⟩⟩

/-- Witness for C10 at the Scenario A field values. -/
theorem C10_positional_call_fails_witness :
    validate_inputs (kwargsOfPositionalCall "vm1" "proj" "us-central1-b" "img-uri"
        "sa@proj.iam.gserviceaccount.com" "subnet-1") = .error .instanceName ∧
      validate_inputs (mkKwargs "vm1" "proj" "us-central1-b" "img-uri"
          "sa@proj.iam.gserviceaccount.com" "subnet-1") =
        .ok (mkKwargs "vm1" "proj" "us-central1-b" "img-uri"
          "sa@proj.iam.gserviceaccount.com" "subnet-1") :=
  C10_positional_call_fails "vm1" "proj" "us-central1-b" "img-uri"
    "sa@proj.iam.gserviceaccount.com" "subnet-1"
    ⟨by decide, by decide, by decide, by decide, by decide, by decide, by decide⟩

end VmCarrier
